import Mathlib

/-!
Verification of the Attack Telemetry State Core of the `mephala` dashboard.

The definitions below are a shallow embedding of the JavaScript source:

* `src/dashboard/src/stores/attackStore.js` (the pinia store): `fetchAttacks`,
  `addAttack`, `recentAttacks`;
* `src/dashboard/src/views/Attacks.vue`: the `loadAttacks` fetch handler, the
  filter `@change` handlers, `severityClass`, the `attack_type` table cell;
* `src/dashboard/src/components/LiveFeed.vue`: `severityDot`, the
  `attack_type` feed span;
* `src/dashboard/src/services/api.js` (the axios client): the request
  interceptor attaching the bearer token, `login`, and the absence of any
  response interceptor;
* `src/dashboard/src/views/AttackMap.vue`: the marker-placement guard over
  geographic entries and the Top Attack Origins list.

Asynchronous handlers are split into a synchronous start step and a
synchronous completion step applied to the response (or failure) when it
resolves; the single-threaded event loop is modelled by folding completion
steps over a resolution order.
-/

/-- One attack telemetry record, as consumed by the client.  `attack_type`
and the geolocation fields are optional (absent when the backend did not
classify or resolve them). -/
structure AttackRecord where
  id : Nat
  timestamp : Nat
  source_ip : String
  service_type : String
  attack_type : Option String
  severity : Int
  country_code : Option String
deriving DecidableEq, Repr

/-- Semantics of the JavaScript expression `x || d` for an optional string:
`null`/`undefined` and the empty string are falsy and fall through to the
default. -/
def jsOrString : Option String → String → String
  | some s, d => if s = "" then d else s
  | none, d => d

/-- Attacks.vue table cell for the type column: `attack.attack_type || 'unknown'`. -/
def attackTypeCellTable (a : Option String) : String :=
  jsOrString a "unknown"

/-- LiveFeed.vue feed span for the attack type: `attack.attack_type || 'scanning'`. -/
def attackTypeCellFeed (a : Option String) : String :=
  jsOrString a "scanning"

/-- Attacks.vue `severityClass`: the four-tier severity colouring of the
attacks table. -/
def severityClass (severity : Int) : String :=
  if severity ≥ 8 then "severity-critical font-bold"
  else if severity ≥ 6 then "severity-high"
  else if severity ≥ 4 then "severity-medium"
  else "severity-low"

/-- LiveFeed.vue `severityDot`: the colouring of the live-feed pulse dot. -/
def severityDot (severity : Int) : String :=
  if severity ≥ 8 then "bg-red-500"
  else if severity ≥ 5 then "bg-yellow-500"
  else "bg-green-500"

/-- The mutable state of the pinia attack store (`attackStore.js`). -/
structure StoreState where
  attacks : List AttackRecord
  stats : Option Nat
  loading : Bool
  error : Option String
deriving DecidableEq, Repr

/-- The page payload returned by `GET /attacks`. -/
structure PageResponse where
  items : List AttackRecord
  page : Nat
  pages : Nat
  total : Nat
deriving DecidableEq, Repr

/-- Store `recentAttacks` computed getter: `attacks.slice(0, 50)`. -/
def recentAttacks (s : StoreState) : List AttackRecord :=
  s.attacks.take 50

/-- First half of the store `fetchAttacks`: `loading.value = true` before
the awaited call. -/
def fetchAttacksStart (s : StoreState) : StoreState :=
  { s with loading := true }

/-- Second half of the store `fetchAttacks`, run when the awaited call
resolves: on success the `try` block stores `response.items` into `attacks`;
on failure the `catch` block stores the message into `error`; the `finally`
block sets `loading` to `false` on both paths.  Nothing else is written. -/
def fetchAttacksResult (s : StoreState) : Except String PageResponse → StoreState
  | .ok resp => { s with attacks := resp.items, loading := false }
  | .error msg => { s with error := some msg, loading := false }

/-- The whole store `fetchAttacks` call, given the eventual outcome of the
transport call. -/
def fetchAttacks (s : StoreState) (r : Except String PageResponse) : StoreState :=
  fetchAttacksResult (fetchAttacksStart s) r

/-- Store `addAttack` (the live-push handler): `unshift` the record, then
truncate to the first 100 entries when the length exceeds 100. -/
def addAttack (attack : AttackRecord) (attacks : List AttackRecord) : List AttackRecord :=
  let grown := attack :: attacks
  if grown.length > 100 then grown.take 100 else grown

/-- The filter selects of Attacks.vue: empty string means no constraint. -/
structure Filters where
  service_type : String
  attack_type : String
deriving DecidableEq, Repr

/-- The local reactive state of the Attacks.vue component. -/
structure AttacksView where
  attacks : List AttackRecord
  page : Nat
  pages : Nat
  total : Nat
  filters : Filters
deriving DecidableEq, Repr

/-- One query issued by `loadAttacks`: `api.getAttacks({ page: page.value, ...filters })`. -/
structure Request where
  page : Nat
  service_type : String
  attack_type : String
deriving DecidableEq, Repr

/-- The request `loadAttacks` issues from the current component state. -/
def loadAttacksRequest (v : AttacksView) : Request :=
  { page := v.page, service_type := v.filters.service_type,
    attack_type := v.filters.attack_type }

/-- Completion half of `loadAttacks`: the resolved response is written into
`attacks`, `pages` and `total`.  `page` is client-driven and is not written,
and no sequence number is consulted: every resolution commits. -/
def loadAttacksCommit (v : AttacksView) (resp : PageResponse) : AttacksView :=
  { v with attacks := resp.items, pages := resp.pages, total := resp.total }

/-- Outcome of a set of overlapping `loadAttacks` calls: the completion
steps run on the single-threaded event loop in resolution order, each one
committing unconditionally. -/
def resolveAll (v : AttacksView) (resolutions : List PageResponse) : AttacksView :=
  resolutions.foldl loadAttacksCommit v

/-- A filter select `@change` event: `v-model` has already written the new
filter value, and the handler is `loadAttacks`, which issues exactly the one
request below.  The page is not touched. -/
def onFilterChange (v : AttacksView) (f : Filters) : AttacksView × List Request :=
  let v' := { v with filters := f }
  (v', [loadAttacksRequest v'])

/-- Process-wide session state of the api client: the token slot of
`localStorage`.  Only `login` writes it. -/
structure Session where
  token : Option String
deriving DecidableEq, Repr

/-- The request interceptor of `api.js`: the `Authorization` header is
attached exactly when a token is stored. -/
def requestAuthHeader (s : Session) : Option String :=
  s.token.map (fun t => "Bearer " ++ t)

/-- Response handling of the axios client as configured in `api.js`: a
non-2xx status rejects the call with the status, a 2xx status resolves it;
the module installs no response interceptor, so no status — 401 included —
modifies the stored session. -/
def handleStatus (s : Session) (status : Nat) : Session × Except Nat Unit :=
  if 200 ≤ status ∧ status < 300 then (s, .ok ()) else (s, .error status)

/-- The `login` method of `api.js`: stores the returned access token. -/
def login (_s : Session) (access_token : String) : Session :=
  { token := some access_token }

/-- One entry of the `GET /stats/geographic` payload consumed by
AttackMap.vue. -/
structure GeoPoint where
  country_code : String
  country_name : String
  count : Nat
  latitude : Option Int
  longitude : Option Int
deriving DecidableEq, Repr

/-- JavaScript truthiness of an optional numeric field: absent and zero are
falsy. -/
def numTruthy : Option Int → Bool
  | none => false
  | some v => v ≠ 0

/-- AttackMap.vue marker guard: `if (point.latitude && point.longitude)`. -/
def markerPlaced (p : GeoPoint) : Bool :=
  numTruthy p.latitude && numTruthy p.longitude

/-- The geographic entries that receive a circle marker on the map. -/
def mapMarkers (gd : List GeoPoint) : List GeoPoint :=
  gd.filter markerPlaced

/-- The Top Attack Origins list of AttackMap.vue: `v-for` over the whole
`geoData` array, no filtering. -/
def topOrigins (gd : List GeoPoint) : List GeoPoint :=
  gd

/-- A concrete record used by witnesses and counterexamples. -/
def demoRecord (n : Nat) : AttackRecord :=
  { id := n, timestamp := n, source_ip := "10.0.0.1", service_type := "ssh",
    attack_type := none, severity := 5, country_code := none }

/-- A concrete store state carrying a previously set error. -/
def demoStore : StoreState :=
  { attacks := [demoRecord 9], stats := none, loading := false, error := some "boom" }

/-- A concrete successful page response. -/
def demoResponse : PageResponse :=
  { items := [demoRecord 1], page := 1, pages := 1, total := 1 }

/-- A concrete Attacks.vue component state. -/
def demoView : AttacksView :=
  { attacks := [], page := 1, pages := 1, total := 0,
    filters := { service_type := "", attack_type := "" } }

/-- The response to the first issued fetch (page 1). -/
def page1Response : PageResponse :=
  { items := [demoRecord 1, demoRecord 2], page := 1, pages := 3, total := 6 }

/-- The response to the second issued fetch (page 2). -/
def page2Response : PageResponse :=
  { items := [demoRecord 3, demoRecord 4], page := 2, pages := 3, total := 6 }

/-- A concrete Attacks.vue component state sitting on page 3. -/
def demoViewPage3 : AttacksView :=
  { attacks := [], page := 3, pages := 5, total := 50,
    filters := { service_type := "", attack_type := "" } }

/-- A concrete session holding a stored token. -/
def demoSession : Session := { token := some "tok" }

/-- A geographic entry on the prime meridian: both coordinates present,
longitude zero. -/
def demoGeoPoint : GeoPoint :=
  { country_code := "GH", country_name := "Ghana", count := 12,
    latitude := some 6, longitude := some 0 }

/-- A concrete sequence of 150 pushed records. -/
def demoPushes : List AttackRecord := (List.range 150).map demoRecord

/-- Helper: `addAttack` is exactly prepend-then-truncate, because taking 100
elements of a list no longer than 100 is the identity. -/
theorem addAttack_eq_take (r : AttackRecord) (l : List AttackRecord) :
    addAttack r l = (r :: l).take 100 := by
  unfold addAttack
  simp only []
  split_ifs with h
  · rfl
  · exact (List.take_of_length_le (by omega)).symm

/-- Helper: truncating the accumulator before appending more on the left
does not change a 100-element truncation of the whole. -/
theorem take_append_take (xs ys : List AttackRecord) :
    (xs ++ ys.take 100).take 100 = (xs ++ ys).take 100 := by
  rw [List.take_append_eq_append_take, List.take_append_eq_append_take,
    List.take_take, Nat.min_eq_left (Nat.sub_le 100 xs.length)]

/-- Helper: folding pushes over a bounded accumulator keeps the 100 newest
records, newest first. -/
theorem foldl_addAttack (ps : List AttackRecord) :
    ∀ acc : List AttackRecord, acc.length ≤ 100 →
      ps.foldl (fun a r => addAttack r a) acc = (ps.reverse ++ acc).take 100 := by
  induction ps with
  | nil =>
    intro acc h
    simp [List.take_of_length_le h]
  | cons r ps ih =>
    intro acc h
    rw [List.foldl_cons, addAttack_eq_take]
    rw [ih ((r :: acc).take 100) (by simp)]
    rw [take_append_take, List.reverse_cons, List.append_assoc, List.singleton_append]

/-- C1: counterexample.  Issue a fetch for page 1 (sequence 1), then a fetch
for page 2 (sequence 2); the page-2 response resolves first and the page-1
response second.  The committed state reflects the page-1 response, not the
response with the greatest sequence number: `loadAttacks` consults no
sequence number and a stale completion overwrites newer state. -/
theorem stale_response_overwrites_newer :
    (resolveAll demoView [page2Response, page1Response]).attacks = page1Response.items ∧
    (resolveAll demoView [page2Response, page1Response]).attacks ≠ page2Response.items := by
  decide

/-- C1 (amended): the committed `attacks/pages/total` reflect whichever
response resolves last, in resolution order; no request sequence number is
tracked and stale responses are never discarded. -/
theorem commit_reflects_last_resolution (v : AttacksView) (rs : List PageResponse)
    (r : PageResponse) :
    (resolveAll v (rs ++ [r])).attacks = r.items ∧
    (resolveAll v (rs ++ [r])).pages = r.pages ∧
    (resolveAll v (rs ++ [r])).total = r.total := by
  simp [resolveAll, List.foldl_append, loadAttacksCommit]

/-- C2: counterexample.  With the component on page 3, changing the service
filter leaves `page` at 3 and issues the one fetch for page 3: the page is
not reset to 1 before re-fetching. -/
theorem filter_change_keeps_page :
    (onFilterChange demoViewPage3 { service_type := "ssh", attack_type := "" }).1.page = 3 ∧
    (onFilterChange demoViewPage3 { service_type := "ssh", attack_type := "" }).2 =
      [{ page := 3, service_type := "ssh", attack_type := "" }] ∧
    (onFilterChange demoViewPage3 { service_type := "ssh", attack_type := "" }).1.page ≠ 1 := by
  decide

/-- C2 (amended): changing a filter issues exactly one new fetch carrying
the changed filters, but the current page is kept as is — the request uses
the current page value and `page` is not reset to 1. -/
theorem filter_change_single_fetch_page_unreset (v : AttacksView) (f : Filters) :
    (onFilterChange v f).2.length = 1 ∧
    (onFilterChange v f).2 =
      [{ page := v.page, service_type := f.service_type, attack_type := f.attack_type }] ∧
    (onFilterChange v f).1.page = v.page ∧
    (onFilterChange v f).1.filters = f := by
  simp [onFilterChange, loadAttacksRequest]

/-- C3: counterexample.  Severities 3 and 4 fall in different tiers of the
table mapping but receive the same live-feed dot, and likewise 5 and 6: the
live feed does not apply the same boundary table as the attacks table. -/
theorem feed_dot_merges_table_tiers :
    severityClass 4 ≠ severityClass 3 ∧ severityDot 4 = severityDot 3 ∧
    severityClass 6 ≠ severityClass 5 ∧ severityDot 6 = severityDot 5 := by
  decide

/-- C3 (amended): the attacks table applies the four-tier boundary table
(severity ≥ 8 critical, ≥ 6 high, ≥ 4 medium, else low), while the live
feed applies a different three-tier mapping with boundaries ≥ 8 and ≥ 5;
the two surfaces agree only on the critical boundary. -/
theorem severity_mappings_characterized (s : Int) :
    (severityClass s = "severity-critical font-bold" ↔ 8 ≤ s) ∧
    (severityClass s = "severity-high" ↔ 6 ≤ s ∧ s < 8) ∧
    (severityClass s = "severity-medium" ↔ 4 ≤ s ∧ s < 6) ∧
    (severityClass s = "severity-low" ↔ s < 4) ∧
    (severityDot s = "bg-red-500" ↔ 8 ≤ s) ∧
    (severityDot s = "bg-yellow-500" ↔ 5 ≤ s ∧ s < 8) ∧
    (severityDot s = "bg-green-500" ↔ s < 5) := by
  unfold severityClass severityDot
  split_ifs <;> refine ⟨?_, ?_, ?_, ?_, ?_, ?_, ?_⟩ <;> simp <;> omega

/-- C4: counterexample.  With a token stored, a call answered with status
401 fails, yet the session still holds the token and the next request still
attaches the Authorization header: the credential is not invalidated. -/
theorem unauthorized_keeps_token :
    (handleStatus demoSession 401).2 = Except.error 401 ∧
    (handleStatus demoSession 401).1 = demoSession ∧
    requestAuthHeader (handleStatus demoSession 401).1 = some "Bearer tok" :=
  ⟨rfl, rfl, rfl⟩

/-- C4 (amended): on HTTP status 401 the call fails with the status error,
but the session is left unchanged — the stored credential is not cleared,
and subsequent calls attach exactly the same Authorization header as
before. -/
theorem unauthorized_fails_but_session_unchanged (s : Session) :
    (handleStatus s 401).2 = Except.error 401 ∧
    (handleStatus s 401).1 = s ∧
    requestAuthHeader (handleStatus s 401).1 = requestAuthHeader s := by
  simp [handleStatus]

/-- C5: counterexample.  Pushing a record whose id equals the id of the
most recently pushed entry is not ignored: the length grows from 1 to 2. -/
theorem duplicate_push_grows_attacks :
    addAttack (demoRecord 1) [demoRecord 1] = [demoRecord 1, demoRecord 1] ∧
    (addAttack (demoRecord 1) [demoRecord 1]).length = 2 ∧
    (addAttack (demoRecord 1) [demoRecord 1]).length ≠ 1 := by
  decide

/-- C5 (amended): `addAttack` performs no deduplication: below the 100-entry
cap every push — a duplicate id included — prepends the record and grows the
length by one. -/
theorem push_always_prepends (r : AttackRecord) (l : List AttackRecord)
    (h : l.length < 100) :
    addAttack r l = r :: l ∧ (addAttack r l).length = l.length + 1 := by
  have hlen : (r :: l).length ≤ 100 := by simp only [List.length_cons]; omega
  have he := addAttack_eq_take r l
  rw [List.take_of_length_le hlen] at he
  exact ⟨he, by rw [he]; rfl⟩

/-- C5 (amended) at a concrete duplicate push. -/
theorem push_always_prepends_witness :
    addAttack (demoRecord 2) [demoRecord 2] = demoRecord 2 :: [demoRecord 2] ∧
    (addAttack (demoRecord 2) [demoRecord 2]).length = [demoRecord 2].length + 1 :=
  push_always_prepends (demoRecord 2) [demoRecord 2] (by decide)

/-- C6: a failed fetch stores the failure message into `error` and leaves
the previously fetched `attacks` untouched (and `loading` ends false). -/
theorem fetch_failure_sets_error_keeps_attacks (s : StoreState) (msg : String) :
    (fetchAttacks s (Except.error msg)).error = some msg ∧
    (fetchAttacks s (Except.error msg)).attacks = s.attacks ∧
    (fetchAttacks s (Except.error msg)).loading = false := by
  simp [fetchAttacks, fetchAttacksStart, fetchAttacksResult]

/-- C7: counterexample.  A successful fetch on a store carrying a stale
error message sets `loading` to false but leaves `error` set: the error is
not cleared on success. -/
theorem fetch_success_keeps_stale_error :
    (fetchAttacks demoStore (Except.ok demoResponse)).loading = false ∧
    (fetchAttacks demoStore (Except.ok demoResponse)).error = some "boom" ∧
    (fetchAttacks demoStore (Except.ok demoResponse)).error ≠ none := by
  decide

/-- C7 (amended): a successful fetch sets `loading` to false and stores the
response items, but a previously set `error` is left in place, not
cleared. -/
theorem fetch_success_clears_loading_not_error (s : StoreState) (resp : PageResponse) :
    (fetchAttacks s (Except.ok resp)).loading = false ∧
    (fetchAttacks s (Except.ok resp)).error = s.error ∧
    (fetchAttacks s (Except.ok resp)).attacks = resp.items := by
  simp [fetchAttacks, fetchAttacksStart, fetchAttacksResult]

/-- C8: counterexample.  For an absent `attack_type` the attacks table
renders "unknown" but the live feed renders "scanning": the two surfaces do
not render identically. -/
theorem feed_renders_scanning_for_absent_type :
    attackTypeCellTable none = "unknown" ∧
    attackTypeCellFeed none = "scanning" ∧
    attackTypeCellFeed none ≠ attackTypeCellTable none := by
  decide

/-- C8 (amended): the attacks table renders an absent `attack_type`
identically to the enum value "unknown" (both as "unknown"), but the live
feed renders an absent value as "scanning", distinct from its rendering of
the "unknown" enum value. -/
theorem attack_type_fallbacks_characterized :
    attackTypeCellTable none = attackTypeCellTable (some "unknown") ∧
    attackTypeCellTable none = "unknown" ∧
    attackTypeCellFeed none = "scanning" ∧
    attackTypeCellFeed (some "unknown") = "unknown" ∧
    attackTypeCellFeed none ≠ attackTypeCellFeed (some "unknown") := by
  decide

/-- C9: `addAttack` never grows the list beyond 100 entries, and after any
150 pushes onto an empty store the list equals the 100 most recent pushes in
newest-first order — length exactly 100, the oldest 50 evicted. -/
theorem addAttack_bounded_and_evicts_oldest :
    (∀ (r : AttackRecord) (l : List AttackRecord), l.length ≤ 100 →
      (addAttack r l).length ≤ 100) ∧
    (∀ ps : List AttackRecord, ps.length = 150 →
      ps.foldl (fun acc r => addAttack r acc) [] = ps.reverse.take 100 ∧
      (ps.foldl (fun acc r => addAttack r acc) []).length = 100) := by
  constructor
  · intro r l _
    rw [addAttack_eq_take, List.length_take]
    exact Nat.min_le_left _ _
  · intro ps hlen
    have h := foldl_addAttack ps [] (by simp)
    rw [List.append_nil] at h
    refine ⟨h, ?_⟩
    rw [h, List.length_take, List.length_reverse, hlen]
    omega

/-- C9 at concrete inputs: one push onto an empty list stays within the
bound, and 150 concrete pushes leave exactly the 100 newest records. -/
theorem addAttack_bounded_and_evicts_oldest_witness :
    (addAttack (demoRecord 0) []).length ≤ 100 ∧
    demoPushes.foldl (fun acc r => addAttack r acc) [] = demoPushes.reverse.take 100 ∧
    (demoPushes.foldl (fun acc r => addAttack r acc) []).length = 100 :=
  ⟨addAttack_bounded_and_evicts_oldest.1 (demoRecord 0) [] (by decide),
   (addAttack_bounded_and_evicts_oldest.2 demoPushes (by simp [demoPushes])).1,
   (addAttack_bounded_and_evicts_oldest.2 demoPushes (by simp [demoPushes])).2⟩

/-- C10: a map marker is placed only for entries whose latitude and
longitude are both truthy, so an entry with a zero coordinate — both
coordinates present — is excluded from map placement while still appearing
in the Top Attack Origins list. -/
theorem zero_coordinate_excluded_from_map_kept_in_origins
    (gd : List GeoPoint) (p : GeoPoint) (hmem : p ∈ gd)
    (h0 : p.latitude = some 0 ∨ p.longitude = some 0) :
    (∀ q ∈ mapMarkers gd, numTruthy q.latitude = true ∧ numTruthy q.longitude = true) ∧
    p ∉ mapMarkers gd ∧ p ∈ topOrigins gd := by
  refine ⟨?_, ?_, hmem⟩
  · intro q hq
    simp only [mapMarkers, List.mem_filter, markerPlaced, Bool.and_eq_true] at hq
    exact hq.2
  · intro hp
    simp only [mapMarkers, List.mem_filter, markerPlaced, Bool.and_eq_true] at hp
    rcases h0 with h | h
    · rw [h] at hp
      simp [numTruthy] at hp
    · rw [h] at hp
      simp [numTruthy] at hp

/-- C10 at a concrete entry on the prime meridian. -/
theorem zero_coordinate_excluded_witness :
    demoGeoPoint ∉ mapMarkers [demoGeoPoint] ∧ demoGeoPoint ∈ topOrigins [demoGeoPoint] :=
  ⟨(zero_coordinate_excluded_from_map_kept_in_origins [demoGeoPoint] demoGeoPoint
      (by simp) (Or.inr rfl)).2.1,
   (zero_coordinate_excluded_from_map_kept_in_origins [demoGeoPoint] demoGeoPoint
      (by simp) (Or.inr rfl)).2.2⟩
